import Mathlib

/-!
Verification of the chat-srv streaming gateway (ide-mesh-suite).

Shallow embedding of `src/services/chat-srv/src/websocket.rs`,
`src/services/chat-srv/src/llm/anthropic.rs` and
`src/services/chat-srv/src/llm/openai.rs`.  External collaborators
(token meter, conversation store, HTTP transport, the upstream stream)
are parameters: each call's outcome is an explicit input and the calls
the code issues are recorded in a trace.
-/

set_option linter.unusedVariables false

/-- `2^32`: modulus of Rust `u32` arithmetic. -/
def u32Mod : Nat := 2 ^ 32

/-- Floor of the base-2 logarithm by fuelled structural recursion; the first
argument is fuel and dominates the number of halvings (`log2floor n` uses
fuel `n`). -/
def log2floorAux : Nat → Nat → Nat
  | 0, _ => 0
  | fuel + 1, n => if n < 2 then 0 else log2floorAux fuel (n / 2) + 1

/-- Floor of the base-2 logarithm (0 at 0). -/
def log2floor (n : Nat) : Nat := log2floorAux n n

/-- The Rust cast `n as f32` for a nonnegative integer `n`: round to the
nearest value with a 24-bit significand, ties to even.  Every integer below
`2^24` is exactly representable; above, the representable values in
`[2^k, 2^(k+1))` are spaced `2^(k-23)` apart.  The result is again an
integer, returned as a `Nat`. -/
def rnd24 (n : Nat) : Nat :=
  if n < 2 ^ 24 then n
  else
    let g := 2 ^ (log2floor n - 23)
    let q := n / g
    let r := n % g
    if 2 * r < g then q * g
    else if g < 2 * r then (q + 1) * g
    else if q % 2 = 0 then q * g
    else (q + 1) * g

/-- `estimate_tokens` from websocket.rs, as a function of the byte length of
its input (the source depends on the input only through `text.len()`):
`(text.len() as f32 / 4.0).ceil() as u32`.  The `usize → f32` cast is
`rnd24`; division by 4.0 and `ceil` are then exact on the float (division by
four only shifts the exponent, and the ceiling of a representable float is
representable), and the final `as u32` cast saturates at `u32::MAX`. -/
def estimateTokensLen (n : Nat) : Nat :=
  min ((rnd24 n + 3) / 4) (2 ^ 32 - 1)

/-- `estimate_tokens` from websocket.rs on an input string; `text.len()` in
Rust is the UTF-8 byte length. -/
def estimate_tokens (text : String) : Nat :=
  estimateTokensLen text.utf8ByteSize

theorem rnd24_eq_self (n : Nat) (h : n ≤ 2 ^ 24) : rnd24 n = n := by
  rcases lt_or_eq_of_le h with h' | h'
  · unfold rnd24
    rw [if_pos h']
  · subst h'
    decide

theorem estimateTokensLen_small (n : Nat) (h : n ≤ 2 ^ 24) :
    estimateTokensLen n = (n + 3) / 4 := by
  rw [estimateTokensLen, rnd24_eq_self n h]
  exact min_eq_left (by omega)

/-- C3: the claim `estimate_tokens(s) = ceil(len(s)/4)` for all inputs fails:
at byte length `2^24 + 1` the `usize → f32` cast rounds down to `2^24`
(ties to even) and the code returns 4194304, while the exact integer
ceiling is 4194305. -/
theorem c3_counterexample :
    estimateTokensLen 16777217 = 4194304 ∧ (16777217 + 3) / 4 = 4194305 := by
  decide

/-- C3 (amended): `estimate_tokens` equals the exact integer ceiling
`ceil(len/4)` for every byte length up to `2^24` (beyond that the f32
rounding of the length can lose the low bits), and in particular
`estimate_tokens "abcd" = 1` and `estimate_tokens "abcde" = 2`. -/
theorem c3_estimate_tokens_ceil :
    (∀ n : Nat, n ≤ 2 ^ 24 → estimateTokensLen n = (n + 3) / 4)
    ∧ estimate_tokens "abcd" = 1 ∧ estimate_tokens "abcde" = 2 := by
  refine ⟨fun n h => estimateTokensLen_small n h, by decide, by decide⟩

/-- C3 witness: the amended statement at the concrete length 5. -/
theorem c3_estimate_tokens_ceil_witness :
    estimateTokensLen 5 = (5 + 3) / 4 :=
  c3_estimate_tokens_ceil.1 5 (by decide)

/-- The error type of llm/mod.rs (`LLMError`). -/
inductive LLMError
  | ApiError (detail : String)
  | NetworkError (detail : String)
  | RateLimitExceeded
  | InvalidRequest (detail : String)
  | ModelNotFound (detail : String)
  | AuthenticationFailed
  | InternalError (detail : String)
  deriving Repr, DecidableEq

/-- `LLMProvider` from llm/mod.rs. -/
inductive LLMProvider
  | OpenAI
  | Anthropic
  deriving Repr, DecidableEq

/-- `ChatMessage` from llm/mod.rs: one turn, role and content. -/
structure ChatMessage where
  role : String
  content : String
  deriving Repr, DecidableEq

/-- `TokenUsage` from llm/mod.rs (u32 fields, carried as `Nat`). -/
structure TokenUsage where
  prompt_tokens : Nat
  completion_tokens : Nat
  total_tokens : Nat
  deriving Repr, DecidableEq

/-- `ChatChoice` from llm/mod.rs. -/
structure ChatChoice where
  index : Nat
  message : ChatMessage
  finish_reason : Option String
  deriving Repr, DecidableEq

/-- `ChatCompletionResponse` from llm/mod.rs. -/
structure ChatCompletionResponse where
  id : String
  model : String
  choices : List ChatChoice
  usage : TokenUsage
  deriving Repr, DecidableEq

/-- Outcome of one upstream HTTP round trip as the adapter observes it:
either a transport failure (the `reqwest` error, stringified) or a response
with a status code, its body text, and — for bodies the adapter tries to
deserialize — the result of that parse (`Except` error carries the serde
error message). -/
inductive HttpOutcome (α : Type)
  | transportError (detail : String)
  | response (status : Nat) (body : String) (parsed : Except String α)

namespace Anthropic

/-- `AnthropicMessage` from llm/anthropic.rs. -/
structure AnthropicMessage where
  role : String
  content : String
  deriving Repr, DecidableEq

/-- `AnthropicContent` from llm/anthropic.rs. -/
structure AnthropicContent where
  content_type : String
  text : String
  deriving Repr, DecidableEq

/-- `AnthropicUsage` from llm/anthropic.rs (u32 fields). -/
structure AnthropicUsage where
  input_tokens : Nat
  output_tokens : Nat
  deriving Repr, DecidableEq

/-- `AnthropicResponse` from llm/anthropic.rs. -/
structure AnthropicResponse where
  id : String
  model : String
  content : List AnthropicContent
  usage : AnthropicUsage
  deriving Repr, DecidableEq

/-- `AnthropicClient::convert_messages`: drop system messages, map every
remaining role other than "assistant" to "user". -/
def convert_messages (messages : List ChatMessage) : List AnthropicMessage :=
  (messages.filter (fun m => m.role ≠ "system")).map
    (fun msg =>
      { role := if msg.role = "assistant" then "assistant" else "user",
        content := msg.content })

/-- `AnthropicClient::extract_system_prompt`: content of the first system
message, if any. -/
def extract_system_prompt (messages : List ChatMessage) : Option String :=
  (messages.find? (fun m => m.role = "system")).map (fun m => m.content)

/-- The `messages` field of the outgoing Anthropic payload built by
`chat_completion`: after `convert_messages`, a system prompt (when present)
is prefixed onto the first converted message's content, but only when that
first message has role "user". -/
def payload_messages (messages : List ChatMessage) : List AnthropicMessage :=
  let converted := convert_messages messages
  match extract_system_prompt messages with
  | none => converted
  | some system_prompt =>
    match converted with
    | [] => []
    | first_msg :: rest =>
      if first_msg.role = "user" then
        { first_msg with content := system_prompt ++ "\n\n" ++ first_msg.content } :: rest
      else
        first_msg :: rest

/-- `AnthropicClient::chat_completion` after the payload is sent, as a
function of the HTTP outcome: transport failure → `NetworkError`; status
200 → parse the body (parse failure → `ApiError`) and build the normalized
response, joining the content blocks and passing the provider token counts
through (`total_tokens` is their u32 sum); 429 → `RateLimitExceeded`;
401 → `AuthenticationFailed`; any other status → `ApiError` with status and
body. -/
def chat_completion (outcome : HttpOutcome AnthropicResponse) :
    Except LLMError ChatCompletionResponse :=
  match outcome with
  | .transportError e => .error (.NetworkError e)
  | .response status body parsed =>
    if status = 200 then
      match parsed with
      | .error e => .error (.ApiError ("Failed to parse response: " ++ e))
      | .ok anthropic_response =>
        .ok { id := anthropic_response.id,
              model := anthropic_response.model,
              choices := [{ index := 0,
                            message := { role := "assistant",
                                         content := String.join
                                           (anthropic_response.content.map (fun c => c.text)) },
                            finish_reason := some "stop" }],
              usage := { prompt_tokens := anthropic_response.usage.input_tokens,
                         completion_tokens := anthropic_response.usage.output_tokens,
                         total_tokens := (anthropic_response.usage.input_tokens
                           + anthropic_response.usage.output_tokens) % u32Mod } }
    else if status = 429 then .error .RateLimitExceeded
    else if status = 401 then .error .AuthenticationFailed
    else .error (.ApiError ("API error (" ++ toString status ++ "): " ++ body))

/-- One SSE frame as the Anthropic normalizer sees it: the event name and
the result of parsing the frame's data as JSON and reading
`data["delta"]["text"]` as a string (`none` when the parse fails or the
path is absent or not a string). -/
structure SseEvent where
  event : String
  deltaText : Option String
  deriving Repr, DecidableEq

/-- The per-item closure of `AnthropicClient::stream_completion`: transport
errors become `ApiError`; a `content_block_delta` event with a parsed
`delta.text` yields that text; every other event — heartbeats, metadata,
unparseable data — yields `Ok("")` (an empty delta, not nothing). -/
def normalize_event (item : Except String SseEvent) : Except LLMError String :=
  match item with
  | .error e => .error (.ApiError e)
  | .ok event =>
    if event.event = "content_block_delta" then
      match event.deltaText with
      | some text => .ok text
      | none => .ok ""
    else .ok ""

/-- `AnthropicClient::stream_completion`: transport failure →
`NetworkError`; non-2xx status → 429/401/other mapping; 2xx → the SSE
frames mapped through `normalize_event`. -/
def stream_completion (outcome : HttpOutcome Unit)
    (events : List (Except String SseEvent)) :
    Except LLMError (List (Except LLMError String)) :=
  match outcome with
  | .transportError e => .error (.NetworkError e)
  | .response status body _ =>
    if 200 ≤ status ∧ status < 300 then .ok (events.map normalize_event)
    else if status = 429 then .error .RateLimitExceeded
    else if status = 401 then .error .AuthenticationFailed
    else .error (.ApiError ("API error (" ++ toString status ++ "): " ++ body))

end Anthropic

namespace OpenAIAd

/-- The usage block of an OpenAI chat-completion response (u32 fields). -/
structure OpenAIUsage where
  prompt_tokens : Nat
  completion_tokens : Nat
  total_tokens : Nat
  deriving Repr, DecidableEq

/-- One choice of an OpenAI chat-completion response as `chat_completion`
reads it: its index, optional message content, and the `Debug`-formatted
finish reason the adapter produces from it. -/
structure OpenAIChoice where
  index : Nat
  content : Option String
  finish_reason : Option String
  deriving Repr, DecidableEq

/-- An OpenAI chat-completion response as `chat_completion` reads it. -/
structure OpenAIResponse where
  id : String
  model : String
  choices : List OpenAIChoice
  usage : Option OpenAIUsage
  deriving Repr, DecidableEq

/-- `OpenAIClient::chat_completion` after the request is sent, as a function
of what the external `async_openai` client returns: `Ok(response)` or
`Err(e)`.  The client library folds every failure — HTTP 429, HTTP 401, any
other non-2xx status, transport errors — into the error value, and the
adapter maps any error to `LLMError::ApiError(e.to_string())`; it never
produces `RateLimitExceeded`, `AuthenticationFailed` or `NetworkError`. -/
def chat_completion (result : Except String OpenAIResponse) :
    Except LLMError ChatCompletionResponse :=
  match result with
  | .error e => .error (.ApiError e)
  | .ok response =>
    .ok { id := response.id,
          model := response.model,
          choices := response.choices.map (fun choice =>
            { index := choice.index,
              message := { role := "assistant",
                           content := choice.content.getD "" },
              finish_reason := choice.finish_reason }),
          usage := { prompt_tokens := (response.usage.map (fun u => u.prompt_tokens)).getD 0,
                     completion_tokens := (response.usage.map (fun u => u.completion_tokens)).getD 0,
                     total_tokens := (response.usage.map (fun u => u.total_tokens)).getD 0 } }

/-- One streamed chunk as the OpenAI normalizer sees it: the choices, each
with its optional `delta.content`. -/
structure StreamChunk where
  choices : List (Option String)
  deriving Repr, DecidableEq

/-- The per-item closure of `OpenAIClient::stream_completion`: stream errors
become `ApiError`; a chunk's first choice yields its `delta.content`
(defaulted to `""` when absent); a chunk with no choices yields `Ok("")`. -/
def normalize_chunk (item : Except String StreamChunk) : Except LLMError String :=
  match item with
  | .error e => .error (.ApiError e)
  | .ok response =>
    match response.choices.head? with
    | some choice => .ok (choice.getD "")
    | none => .ok ""

/-- `OpenAIClient::stream_completion`: a failure to start the stream is
mapped to `ApiError(e.to_string())` — like `chat_completion`, regardless of
the underlying status or transport condition — and on success the chunks
are mapped through `normalize_chunk`. -/
def stream_completion (start : Except String Unit)
    (chunks : List (Except String StreamChunk)) :
    Except LLMError (List (Except LLMError String)) :=
  match start with
  | .error e => .error (.ApiError e)
  | .ok _ => .ok (chunks.map normalize_chunk)

end OpenAIAd

/-- `ServerMessage` from websocket.rs: the protocol events the gateway sends
to the client. -/
inductive ServerMessage
  | Connected (session_id : String)
  | Authenticated (user_id : String)
  | Chunk (content : String) (model : String) (finish_reason : Option String)
  | Error (message : String)
  | Usage (prompt_tokens completion_tokens total_tokens remaining_daily remaining_monthly : Nat)
  | Pong
  deriving Repr, DecidableEq

/-- `ClientMessage` from websocket.rs.  The `temperature: Option<f32>` field
of `Chat` is only forwarded verbatim to the provider and never inspected by
the gateway, so it is left out of the embedding. -/
inductive ClientMessage
  | Auth (token : String)
  | Chat (message : String) (model : Option String) (conversation_id : Option String)
      (max_tokens : Option Nat)
  | Stop
  | Ping
  deriving Repr, DecidableEq

/-- One call the gateway issues to an external collaborator, with the
arguments it passes. -/
inductive ExtCall
  | checkLimits (user_id : String)
  | createConversation (user_id : String) (model : String)
  | appendMessage (conversation_id : String) (role : String) (content : String)
  | streamStart (provider : LLMProvider) (model : String) (prompt : String)
  | recordUsage (user_id : String) (model : String) (prompt_tokens completion_tokens : Nat)
  | getRemainingTokens (user_id : String)
  deriving Repr, DecidableEq

/-- The outcomes of the external collaborator calls a single chat request
can make, fixed up front so `handle_chat_message` is a pure function of
them.  `streamResult`: outcome of `stream_completion` — on success, the
normalized items the delta stream yields, in order.  Errors of
`add_message` and `record_usage` are only logged by the source and do not
influence any observable below, so they are not represented. -/
structure ChatEnv where
  checkLimitsResult : Except String Bool
  createConversationResult : Except String String
  streamResult : Except LLMError (List (Except LLMError String))
  remainingResult : Except String (Nat × Nat)

/-- The delta-consumption loop of the streaming task in
`handle_chat_message` (`while let Some(chunk) = stream.next().await`),
with the loop state as explicit accumulators: emitted events, the
assistant message assembled so far, and the completion-token counter
(u32, wrapping).  An `Ok(text)` item appends `text`, adds its token
estimate, and emits a content chunk; an `Err` item emits one
`error {"Stream error"}` event and breaks, reading no further items. -/
def streamLoop (model : String) (items : List (Except LLMError String))
    (events : List ServerMessage) (assistant_message : String) (completion_tokens : Nat) :
    List ServerMessage × String × Nat :=
  match items with
  | [] => (events, assistant_message, completion_tokens)
  | .ok text :: rest =>
    streamLoop model rest
      (events ++ [.Chunk text model none])
      (assistant_message ++ text)
      ((completion_tokens + estimate_tokens text) % u32Mod)
  | .error _ :: _ =>
    (events ++ [.Error "Stream error"], assistant_message, completion_tokens)

/-- What one chat request produces: the events sent to the client (in
order) and the external calls issued (in order). -/
structure TaskResult where
  events : List ServerMessage
  calls : List ExtCall
  deriving Repr, DecidableEq

/-- The task spawned by `handle_chat_message` (websocket.rs:238-366): start
the provider stream (failure → one error event and early return, no
terminal chunk), run `streamLoop`, save the assembled assistant message
when non-empty, compute `prompt_tokens`/`total_tokens` (u32), call
`record_usage`, then `get_remaining_tokens` — emitting a usage event only
when that read succeeds — and finally emit the terminal chunk with empty
content and finish reason "stop". -/
def chatTask (env : ChatEnv) (user_id conv_id model message : String)
    (provider : LLMProvider) : TaskResult :=
  match env.streamResult with
  | .error _ =>
    { events := [.Error "Failed to start stream"],
      calls := [.streamStart provider model message] }
  | .ok items =>
    let looped := streamLoop model items [] "" 0
    let assistant_message := looped.2.1
    let completion_tokens := looped.2.2
    let save_calls := if assistant_message = "" then []
      else [ExtCall.appendMessage conv_id "assistant" assistant_message]
    let prompt_tokens := estimate_tokens message
    let total_tokens := (prompt_tokens + completion_tokens) % u32Mod
    let usage_events := match env.remainingResult with
      | .ok (daily, monthly) =>
        [ServerMessage.Usage prompt_tokens completion_tokens total_tokens daily monthly]
      | .error _ => []
    { events := looped.1 ++ usage_events ++ [.Chunk "" model (some "stop")],
      calls := [ExtCall.streamStart provider model message] ++ save_calls
        ++ [.recordUsage user_id model prompt_tokens completion_tokens,
            .getRemainingTokens user_id] }

/-- `handle_chat_message` (websocket.rs:182-367) as a pure function of the
collaborator outcomes: quota pre-check first — note it receives only the
user id — with `Ok(false)` → `error {"Token limit exceeded"}` and `Err` →
`error {"Internal error"}`, each without any further call; then model
defaulting and provider selection by the "claude" name prefix; conversation
creation when no id was supplied; append of the user turn; and the
streaming task. -/
def handle_chat_message (env : ChatEnv) (default_openai_model user_id message : String)
    (model? conversation_id? : Option String) : TaskResult :=
  match env.checkLimitsResult with
  | .ok false =>
    { events := [.Error "Token limit exceeded"], calls := [.checkLimits user_id] }
  | .error _ =>
    { events := [.Error "Internal error"], calls := [.checkLimits user_id] }
  | .ok true =>
    let model := model?.getD default_openai_model
    let provider := if model.startsWith "claude" then LLMProvider.Anthropic
      else LLMProvider.OpenAI
    match conversation_id? with
    | some conv_id =>
      let task := chatTask env user_id conv_id model message provider
      { events := task.events,
        calls := [ExtCall.checkLimits user_id,
                  .appendMessage conv_id "user" message] ++ task.calls }
    | none =>
      match env.createConversationResult with
      | .error _ =>
        { events := [.Error "Failed to create conversation"],
          calls := [.checkLimits user_id, .createConversation user_id model] }
      | .ok conv_id =>
        let task := chatTask env user_id conv_id model message provider
        { events := task.events,
          calls := [ExtCall.checkLimits user_id, .createConversation user_id model,
                    .appendMessage conv_id "user" message] ++ task.calls }

/-- `validate_token` (websocket.rs:176-180): a stub that ignores the token
and returns the constant user id "user123". -/
def validate_token (_token : String) : Except String String :=
  .ok "user123"

/-- The mutable state of the reader loop in `handle_socket`:
`authenticated` flag and optional user id. -/
structure ConnState where
  authenticated : Bool
  user_id : Option String
  deriving Repr, DecidableEq

/-- One step of the reader loop of `handle_socket` on a parsed client
message.  Besides the loop state it threads the list of in-flight
streaming-task ids (`tokio::spawn` handles; the source drops every handle
it creates, so the list models what a supervisor would have to know) and a
fresh id for a task spawned by this step.  Returns the new state, the new
in-flight list, and the events the step itself emits.  The `Chat` arm, when
authenticated, spawns one task (its own events are `chatTask`'s and happen
asynchronously); the `Stop` arm only logs — it cancels nothing and emits
nothing (websocket.rs:138-141, `TODO: Implement stream cancellation`). -/
def sessionStep (st : ConnState) (inflight : List Nat) (fresh_id : Nat)
    (msg : ClientMessage) : ConnState × List Nat × List ServerMessage :=
  match msg with
  | .Auth token =>
    match validate_token token with
    | .ok uid => ({ authenticated := true, user_id := some uid }, inflight,
        [.Authenticated uid])
    | .error e => (st, inflight, [.Error ("Authentication failed: " ++ e)])
  | .Chat _ _ _ _ =>
    if st.authenticated = false then (st, inflight, [.Error "Not authenticated"])
    else
      match st.user_id with
      | some _ => (st, inflight ++ [fresh_id], [])
      | none => (st, inflight, [])
  | .Stop => (st, inflight, [])
  | .Ping => (st, inflight, [.Pong])

/-- Effect of `handle_socket` on the `active_sessions` registry when a
connection is established (websocket.rs:64-84): the session id is generated
and `connected` is sent, but nothing is ever inserted into the registry. -/
def connect_registry_update (registry : List String) (_session_id : String) :
    List String :=
  registry

/-- Effect of `handle_socket` on the `active_sessions` registry when the
connection ends (websocket.rs:172): `active_sessions.remove(&session_id)`. -/
def disconnect_registry_update (registry : List String) (session_id : String) :
    List String :=
  registry.erase session_id

/-- Folding string concatenation from an arbitrary seed factors the seed
out front. -/
theorem foldl_string_append (l : List String) :
    ∀ s : String, l.foldl (fun r t => r ++ t) s = s ++ l.foldl (fun r t => r ++ t) "" := by
  induction l with
  | nil => intro s; simp
  | cons head tail ih =>
    intro s
    rw [List.foldl_cons, List.foldl_cons, ih (s ++ head), ih ("" ++ head)]
    simp [String.append_assoc]

/-- `streamLoop` on a list of successful deltas: every delta becomes a
content chunk in order, the assistant message is their concatenation onto
the accumulator, and the completion counter is the wrapping sum of their
estimates. -/
theorem streamLoop_ok (model : String) (deltas : List String) :
    ∀ events assistant completion,
      streamLoop model (deltas.map Except.ok) events assistant completion
        = (events ++ deltas.map (fun t => ServerMessage.Chunk t model none),
           assistant ++ String.join deltas,
           deltas.foldl (fun acc t => (acc + estimate_tokens t) % u32Mod) completion) := by
  induction deltas with
  | nil => intro events assistant completion; simp [streamLoop, String.join]
  | cons head tail ih =>
    intro events assistant completion
    rw [List.map_cons, streamLoop, ih]
    simp only [String.join, List.foldl_cons]
    rw [foldl_string_append tail ("" ++ head)]
    simp [String.append_assoc]

/-- `streamLoop` on a list whose first error sits after a successful
prefix: the events are the prefix chunks followed by one
`error {"Stream error"}`, nothing after the error is read, and the
accumulators reflect the prefix only. -/
theorem streamLoop_error (model : String) (deltas : List String) (e : LLMError)
    (rest : List (Except LLMError String)) :
    ∀ events assistant completion,
      streamLoop model (deltas.map Except.ok ++ Except.error e :: rest)
          events assistant completion
        = (events ++ deltas.map (fun t => ServerMessage.Chunk t model none)
             ++ [.Error "Stream error"],
           assistant ++ String.join deltas,
           deltas.foldl (fun acc t => (acc + estimate_tokens t) % u32Mod) completion) := by
  induction deltas with
  | nil => intro events assistant completion; simp [streamLoop, String.join]
  | cons head tail ih =>
    intro events assistant completion
    rw [List.map_cons, List.cons_append, streamLoop, ih]
    simp only [String.join, List.foldl_cons]
    rw [foldl_string_append tail ("" ++ head)]
    simp [String.append_assoc]

/-- C4: the Anthropic-style adapter merges the system prompt into the first
user turn — `[{system:"You are helpful"}, {user:"Hi"}]` becomes exactly one
message `{user, "You are helpful\n\nHi"}` — and when the first message
after filtering out system messages is not a user turn (or no message
remains), no merge occurs and the payload is just the converted list, from
which system content has been dropped. -/
theorem c4_role_merge :
    Anthropic.payload_messages
        [{ role := "system", content := "You are helpful" },
         { role := "user", content := "Hi" }]
      = [{ role := "user", content := "You are helpful\n\nHi" }]
    ∧ (∀ msgs first_msg rest,
        Anthropic.convert_messages msgs = first_msg :: rest →
        first_msg.role ≠ "user" →
        Anthropic.payload_messages msgs = Anthropic.convert_messages msgs)
    ∧ (∀ msgs, Anthropic.convert_messages msgs = [] →
        Anthropic.payload_messages msgs = []) := by
  refine ⟨by decide, ?_, ?_⟩
  · intro msgs first_msg rest hconv hrole
    unfold Anthropic.payload_messages
    rw [hconv]
    cases Anthropic.extract_system_prompt msgs with
    | none => rfl
    | some system_prompt => simp [hrole]
  · intro msgs hconv
    unfold Anthropic.payload_messages
    rw [hconv]
    cases Anthropic.extract_system_prompt msgs with
    | none => rfl
    | some system_prompt => rfl

/-- C4 witness: no merge for `[{system:"s"}, {assistant:"a"}]`, whose first
converted message is an assistant turn. -/
theorem c4_role_merge_witness :
    Anthropic.payload_messages
        [{ role := "system", content := "s" }, { role := "assistant", content := "a" }]
      = Anthropic.convert_messages
        [{ role := "system", content := "s" }, { role := "assistant", content := "a" }] :=
  c4_role_merge.2.1
    [{ role := "system", content := "s" }, { role := "assistant", content := "a" }]
    { role := "assistant", content := "a" } [] (by decide) (by decide)

/-- C5: the fixed error mapping does not hold for every adapter: the
OpenAI-style adapter maps every failure of the external client — which
folds HTTP 429 into the error value it returns — to `ApiError`, never to
`RateLimitExceeded`. -/
theorem c5_counterexample :
    OpenAIAd.chat_completion (.error "API error: 429 Too Many Requests")
        = .error (.ApiError "API error: 429 Too Many Requests")
    ∧ OpenAIAd.chat_completion (.error "API error: 429 Too Many Requests")
        ≠ .error .RateLimitExceeded := by
  refine ⟨rfl, ?_⟩
  simp [OpenAIAd.chat_completion]

/-- C5 (amended): the Anthropic-style adapter maps outcomes as the claim
states — transport → `NetworkError`, 429 → `RateLimitExceeded`,
401 → `AuthenticationFailed`, any other non-200 (for `chat_completion`)
resp. non-2xx (for `stream_completion`) status → `ApiError` with status and
body — while the OpenAI-style adapter maps every client failure, rate
limits, auth failures and transport errors included, to `ApiError` with the
stringified error. -/
theorem c5_error_mapping :
    (∀ e, Anthropic.chat_completion (.transportError e) = .error (.NetworkError e))
    ∧ (∀ body parsed, Anthropic.chat_completion (.response 429 body parsed)
        = .error .RateLimitExceeded)
    ∧ (∀ body parsed, Anthropic.chat_completion (.response 401 body parsed)
        = .error .AuthenticationFailed)
    ∧ (∀ status body parsed, status ≠ 200 → status ≠ 429 → status ≠ 401 →
        Anthropic.chat_completion (.response status body parsed)
          = .error (.ApiError ("API error (" ++ toString status ++ "): " ++ body)))
    ∧ (∀ e events, Anthropic.stream_completion (.transportError e) events
        = .error (.NetworkError e))
    ∧ (∀ status body parsed events, ¬(200 ≤ status ∧ status < 300) →
        Anthropic.stream_completion (.response status body parsed) events
          = (if status = 429 then .error .RateLimitExceeded
             else if status = 401 then .error .AuthenticationFailed
             else .error (.ApiError ("API error (" ++ toString status ++ "): " ++ body))))
    ∧ (∀ e, OpenAIAd.chat_completion (.error e) = .error (.ApiError e))
    ∧ (∀ e chunks, OpenAIAd.stream_completion (.error e) chunks = .error (.ApiError e)) := by
  refine ⟨fun e => rfl, fun body parsed => rfl, fun body parsed => rfl, ?_,
    fun e events => rfl, ?_, fun e => rfl, fun e chunks => rfl⟩
  · intro status body parsed h200 h429 h401
    simp only [Anthropic.chat_completion]
    rw [if_neg h200, if_neg h429, if_neg h401]
  · intro status body parsed events hsucc
    simp only [Anthropic.stream_completion]
    rw [if_neg hsucc]

/-- C5 witness: the Anthropic mapping at status 500 with body "oops". -/
theorem c5_error_mapping_witness :
    Anthropic.chat_completion (.response 500 "oops" (.error "not json"))
      = .error (.ApiError ("API error (" ++ toString 500 ++ "): " ++ "oops")) :=
  c5_error_mapping.2.2.2.1 500 "oops" (.error "not json")
    (by decide) (by decide) (by decide)

/-- C7: heartbeat/metadata events are not filtered silently: the Anthropic
normalizer maps an SSE event that is not a `content_block_delta` (here a
"ping") to the delta `Ok("")`, the OpenAI normalizer maps a chunk without
choices to `Ok("")`, and the protocol engine then emits a client-visible
`chunk` event with empty content for it. -/
theorem c7_counterexample :
    Anthropic.normalize_event (.ok { event := "ping", deltaText := none }) = .ok ""
    ∧ OpenAIAd.normalize_chunk (.ok { choices := [] }) = .ok ""
    ∧ (chatTask
        { checkLimitsResult := .ok true, createConversationResult := .ok "c1",
          streamResult := Anthropic.stream_completion (.response 200 "" (.ok ()))
            [.ok { event := "ping", deltaText := none }],
          remainingResult := .error "unavailable" }
        "user123" "c1" "claude-3-opus-20240229" "Hi" .Anthropic).events.head?
      = some (.Chunk "" "claude-3-opus-20240229" none) := by
  refine ⟨rfl, rfl, ?_⟩
  decide

/-- C7 (amended): the normalizers surface every provider event as one item:
a `content_block_delta` event (resp. a chunk with a first choice) yields
its text, defaulted to `""` when absent; every other event — heartbeats and
metadata included — yields the empty delta `Ok("")` rather than being
dropped; transport errors yield `Err(ApiError)`. -/
theorem c7_normalizer_surfaces_empty_deltas :
    (∀ ev : Anthropic.SseEvent, ev.event ≠ "content_block_delta" →
        Anthropic.normalize_event (.ok ev) = .ok "")
    ∧ (∀ ev : Anthropic.SseEvent, ev.event = "content_block_delta" →
        Anthropic.normalize_event (.ok ev) = .ok (ev.deltaText.getD ""))
    ∧ (∀ e, Anthropic.normalize_event (.error e) = .error (.ApiError e))
    ∧ (∀ c : OpenAIAd.StreamChunk,
        OpenAIAd.normalize_chunk (.ok c)
          = .ok (((c.choices.head?).map (fun choice => choice.getD "")).getD ""))
    ∧ (∀ e, OpenAIAd.normalize_chunk (.error e) = .error (.ApiError e)) := by
  refine ⟨?_, ?_, fun e => rfl, ?_, fun e => rfl⟩
  · intro ev h
    simp only [Anthropic.normalize_event]
    rw [if_neg h]
  · intro ev h
    simp only [Anthropic.normalize_event]
    rw [if_pos h]
    cases ev.deltaText with
    | none => rfl
    | some text => rfl
  · intro c
    simp only [OpenAIAd.normalize_chunk]
    cases h : c.choices.head? with
    | none => simp [h]
    | some choice => simp [h]

/-- C7 witness: the amended statement on a "message_start" metadata event. -/
theorem c7_normalizer_surfaces_empty_deltas_witness :
    Anthropic.normalize_event (.ok { event := "message_start", deltaText := none }) = .ok "" :=
  c7_normalizer_surfaces_empty_deltas.1 { event := "message_start", deltaText := none }
    (by decide)

/-- C1: the claim counts three client-visible events for the delta stream
`["Hello", " world"]`, but between the last content chunk and the terminal
chunk the engine also sends the usage event: the client sees four events,
not three. -/
theorem c1_counterexample :
    (chatTask
        { checkLimitsResult := .ok true, createConversationResult := .ok "c1",
          streamResult := .ok [.ok "Hello", .ok " world"],
          remainingResult := .ok (5, 10) }
        "user123" "c1" "gpt-4" "Hi" .OpenAI).events
      = [.Chunk "Hello" "gpt-4" none, .Chunk " world" "gpt-4" none,
         .Usage 1 4 5 5 10, .Chunk "" "gpt-4" (some "stop")]
    ∧ (chatTask
        { checkLimitsResult := .ok true, createConversationResult := .ok "c1",
          streamResult := .ok [.ok "Hello", .ok " world"],
          remainingResult := .ok (5, 10) }
        "user123" "c1" "gpt-4" "Hi" .OpenAI).events
      ≠ [.Chunk "Hello" "gpt-4" none, .Chunk " world" "gpt-4" none,
         .Chunk "" "gpt-4" (some "stop")] := by
  decide

/-- C1 (amended): for a normalized delta stream that completes naturally
(and a successful remaining-limits read), the streaming task emits the
chunk events in the exact order the normalizer yields deltas, then one
usage event, then exactly one terminal chunk with empty content and finish
reason "stop" — four client-visible events for `["Hello", " world"]`. -/
theorem c1_stream_framing (env : ChatEnv) (user_id conv_id model message : String)
    (provider : LLMProvider) (deltas : List String) (daily monthly : Nat)
    (hstream : env.streamResult = .ok (deltas.map Except.ok))
    (hrem : env.remainingResult = .ok (daily, monthly)) :
    (chatTask env user_id conv_id model message provider).events
      = deltas.map (fun t => ServerMessage.Chunk t model none)
        ++ [.Usage (estimate_tokens message)
              (deltas.foldl (fun acc t => (acc + estimate_tokens t) % u32Mod) 0)
              ((estimate_tokens message
                + deltas.foldl (fun acc t => (acc + estimate_tokens t) % u32Mod) 0) % u32Mod)
              daily monthly,
            .Chunk "" model (some "stop")]
    ∧ ((chatTask env user_id conv_id model message provider).events.filter
        (fun ev => match ev with
          | .Chunk _ _ (some _) => true
          | _ => false)).length = 1 := by
  have hevents : (chatTask env user_id conv_id model message provider).events
      = deltas.map (fun t => ServerMessage.Chunk t model none)
        ++ [.Usage (estimate_tokens message)
              (deltas.foldl (fun acc t => (acc + estimate_tokens t) % u32Mod) 0)
              ((estimate_tokens message
                + deltas.foldl (fun acc t => (acc + estimate_tokens t) % u32Mod) 0) % u32Mod)
              daily monthly,
            .Chunk "" model (some "stop")] := by
    unfold chatTask
    rw [hstream]
    simp only [streamLoop_ok, hrem]
    simp
  refine ⟨hevents, ?_⟩
  rw [hevents, List.filter_append]
  have hnone : (deltas.map (fun t => ServerMessage.Chunk t model none)).filter
      (fun ev => match ev with
        | ServerMessage.Chunk _ _ (some _) => true
        | _ => false) = [] := by
    rw [List.filter_eq_nil_iff]
    intro ev hev
    obtain ⟨t, _, rfl⟩ := List.mem_map.mp hev
    simp
  rw [hnone]
  rfl

/-- C1 witness: the amended framing at the concrete stream
`["Hello", " world"]`. -/
theorem c1_stream_framing_witness :
    (chatTask
        { checkLimitsResult := .ok true, createConversationResult := .ok "c1",
          streamResult := .ok [.ok "Hello", .ok " world"],
          remainingResult := .ok (5, 10) }
        "user123" "c1" "gpt-4" "Hi" .OpenAI).events
      = ["Hello", " world"].map (fun t => ServerMessage.Chunk t "gpt-4" none)
        ++ [.Usage (estimate_tokens "Hi")
              (["Hello", " world"].foldl (fun acc t => (acc + estimate_tokens t) % u32Mod) 0)
              ((estimate_tokens "Hi"
                + ["Hello", " world"].foldl (fun acc t => (acc + estimate_tokens t) % u32Mod) 0)
               % u32Mod)
              5 10,
            .Chunk "" "gpt-4" (some "stop")] :=
  (c1_stream_framing
    { checkLimitsResult := .ok true, createConversationResult := .ok "c1",
      streamResult := .ok [.ok "Hello", .ok " world"], remainingResult := .ok (5, 10) }
    "user123" "c1" "gpt-4" "Hi" .OpenAI ["Hello", " world"] 5 10 rfl rfl).1

/-- C2: the quota pre-check is not given the estimated token count: it
receives only the user id, so two requests whose prompts have different
estimates issue the identical pre-check call, and on denial the only call
made carries no token count. -/
theorem c2_counterexample :
    (handle_chat_message
        { checkLimitsResult := .ok false, createConversationResult := .ok "c1",
          streamResult := .ok [], remainingResult := .ok (0, 0) }
        "gpt-4" "user123" "abcdefgh" none none).calls
      = (handle_chat_message
          { checkLimitsResult := .ok false, createConversationResult := .ok "c1",
            streamResult := .ok [], remainingResult := .ok (0, 0) }
          "gpt-4" "user123" "x" none none).calls
    ∧ estimate_tokens "abcdefgh" ≠ estimate_tokens "x"
    ∧ (handle_chat_message
        { checkLimitsResult := .ok false, createConversationResult := .ok "c1",
          streamResult := .ok [], remainingResult := .ok (0, 0) }
        "gpt-4" "user123" "abcdefgh" none none).calls
      = [.checkLimits "user123"] := by
  decide

/-- C2 (amended): the quota pre-check `check_limits(user)` — which receives
only the user id, not a token estimate — is the first external call of
every chat request, and when it is not granted no further call (in
particular no upstream call) is issued and the client receives
`error {"Token limit exceeded"}`. -/
theorem c2_precheck_gating (env : ChatEnv) (default_model user_id message : String)
    (model? conversation_id? : Option String) :
    ((handle_chat_message env default_model user_id message model? conversation_id?).calls.head?
        = some (.checkLimits user_id))
    ∧ (env.checkLimitsResult = .ok false →
        (handle_chat_message env default_model user_id message model? conversation_id?).events
            = [.Error "Token limit exceeded"]
          ∧ (handle_chat_message env default_model user_id message model? conversation_id?).calls
            = [.checkLimits user_id]) := by
  obtain ⟨cl, cc, sr, rr⟩ := env
  constructor
  · cases cl with
    | error e => rfl
    | ok granted =>
      cases granted with
      | false => rfl
      | true =>
        cases conversation_id? with
        | some conv_id => rfl
        | none =>
          cases cc with
          | error e => rfl
          | ok conv_id => rfl
  · intro hdeny
    cases cl with
    | error e => exact absurd hdeny (by simp)
    | ok granted =>
      cases granted with
      | false => exact ⟨rfl, rfl⟩
      | true => exact absurd hdeny (by simp)

/-- C2 witness: the gating at a concrete denying environment. -/
theorem c2_precheck_gating_witness :
    ((handle_chat_message
        { checkLimitsResult := .ok false, createConversationResult := .ok "c1",
          streamResult := .ok [], remainingResult := .ok (0, 0) }
        "gpt-4" "user123" "Hi" none none).calls.head?
      = some (.checkLimits "user123"))
    ∧ ((handle_chat_message
        { checkLimitsResult := .ok false, createConversationResult := .ok "c1",
          streamResult := .ok [], remainingResult := .ok (0, 0) }
        "gpt-4" "user123" "Hi" none none).events
      = [.Error "Token limit exceeded"]) :=
  ⟨(c2_precheck_gating
      { checkLimitsResult := .ok false, createConversationResult := .ok "c1",
        streamResult := .ok [], remainingResult := .ok (0, 0) }
      "gpt-4" "user123" "Hi" none none).1,
   ((c2_precheck_gating
      { checkLimitsResult := .ok false, createConversationResult := .ok "c1",
        streamResult := .ok [], remainingResult := .ok (0, 0) }
      "gpt-4" "user123" "Hi" none none).2 rfl).1⟩

/-- C6: the `Stop` arm of the reader loop cancels nothing: for any session
state and any set of in-flight streaming tasks, the step on `Stop` leaves
the state and the in-flight tasks unchanged and emits nothing — the source
only logs (websocket.rs:138-141 is a `TODO`), so deltas keep flowing and
no cancellation-time usage accounting is triggered. -/
theorem c6_stop_cancels_nothing (st : ConnState) (inflight : List Nat) (fresh_id : Nat) :
    sessionStep st inflight fresh_id .Stop = (st, inflight, []) :=
  rfl

/-- C8: no session entry is ever inserted into the session registry:
`handle_socket` leaves `active_sessions` untouched on connect (so the fresh
session id is not in the registry while the connection lives), and the
remove on close erases a key that was never present. -/
theorem c8_no_session_insert :
    (∀ (registry : List String) (session_id : String),
        connect_registry_update registry session_id = registry)
    ∧ "session-1" ∉ connect_registry_update [] "session-1"
    ∧ disconnect_registry_update (connect_registry_update [] "session-1") "session-1"
        = [] := by
  refine ⟨fun registry session_id => rfl, by decide, by decide⟩

/-- C9: the claim fails in the case where the remaining-limits read fails:
after a mid-stream provider error with `get_remaining_tokens` returning an
error, the task emits the streamed chunk, one `error` event and the
terminal "stop" chunk, but no usage event at all — the read failure is
only logged (websocket.rs:355-357) and the usage event is skipped. -/
theorem c9_counterexample :
    (chatTask
        { checkLimitsResult := .ok true, createConversationResult := .ok "c1",
          streamResult := .ok [.ok "Hel", .error (.ApiError "boom"), .ok "lost"],
          remainingResult := .error "redis down" }
        "user123" "c1" "gpt-4" "Hi" .OpenAI).events
      = [.Chunk "Hel" "gpt-4" none, .Error "Stream error", .Chunk "" "gpt-4" (some "stop")]
    ∧ ((chatTask
        { checkLimitsResult := .ok true, createConversationResult := .ok "c1",
          streamResult := .ok [.ok "Hel", .error (.ApiError "boom"), .ok "lost"],
          remainingResult := .error "redis down" }
        "user123" "c1" "gpt-4" "Hi" .OpenAI).events.filter
        (fun ev => match ev with
          | .Usage _ _ _ _ _ => true
          | _ => false)) = [] := by
  decide

/-- C9 (amended): a mid-stream provider error produces one `error` event
after the chunks already streamed, nothing after the error is read, and
the bookkeeping still runs: the partial assistant message is appended to
history when non-empty, usage for the consumed prefix is recorded, and
then a usage event — emitted only when the remaining-limits read
succeeds, skipped when it fails — is followed by the terminal "stop"
chunk, which is sent unconditionally. -/
theorem c9_midstream_error_bookkeeping (env : ChatEnv)
    (user_id conv_id model message : String) (provider : LLMProvider)
    (deltas : List String) (e : LLMError) (rest : List (Except LLMError String))
    (hstream : env.streamResult = .ok (deltas.map Except.ok ++ Except.error e :: rest)) :
    (chatTask env user_id conv_id model message provider).events
      = deltas.map (fun t => ServerMessage.Chunk t model none)
        ++ [.Error "Stream error"]
        ++ (match env.remainingResult with
            | .ok (daily, monthly) =>
              [ServerMessage.Usage (estimate_tokens message)
                (deltas.foldl (fun acc t => (acc + estimate_tokens t) % u32Mod) 0)
                ((estimate_tokens message
                  + deltas.foldl (fun acc t => (acc + estimate_tokens t) % u32Mod) 0) % u32Mod)
                daily monthly]
            | .error _ => [])
        ++ [.Chunk "" model (some "stop")]
    ∧ (chatTask env user_id conv_id model message provider).calls
      = [.streamStart provider model message]
        ++ (if String.join deltas = "" then []
            else [ExtCall.appendMessage conv_id "assistant" (String.join deltas)])
        ++ [.recordUsage user_id model (estimate_tokens message)
              (deltas.foldl (fun acc t => (acc + estimate_tokens t) % u32Mod) 0),
            .getRemainingTokens user_id] := by
  unfold chatTask
  rw [hstream]
  simp only [streamLoop_error]
  cases hrr : env.remainingResult with
  | error err => simp
  | ok pair =>
    obtain ⟨daily, monthly⟩ := pair
    simp

/-- C9 witness: a stream that yields "Hel" and then fails, with a
successful remaining-limits read. -/
theorem c9_midstream_error_bookkeeping_witness :
    (chatTask
        { checkLimitsResult := .ok true, createConversationResult := .ok "c1",
          streamResult := .ok [.ok "Hel", .error (.ApiError "boom"), .ok "lost"],
          remainingResult := .ok (7, 9) }
        "user123" "c1" "gpt-4" "Hi" .OpenAI).events
      = ["Hel"].map (fun t => ServerMessage.Chunk t "gpt-4" none)
        ++ [.Error "Stream error"]
        ++ [ServerMessage.Usage (estimate_tokens "Hi")
              (["Hel"].foldl (fun acc t => (acc + estimate_tokens t) % u32Mod) 0)
              ((estimate_tokens "Hi"
                + ["Hel"].foldl (fun acc t => (acc + estimate_tokens t) % u32Mod) 0) % u32Mod)
              7 9]
        ++ [.Chunk "" "gpt-4" (some "stop")] :=
  (c9_midstream_error_bookkeeping
    { checkLimitsResult := .ok true, createConversationResult := .ok "c1",
      streamResult := .ok [.ok "Hel", .error (.ApiError "boom"), .ok "lost"],
      remainingResult := .ok (7, 9) }
    "user123" "c1" "gpt-4" "Hi" .OpenAI ["Hel"] (.ApiError "boom") [.ok "lost"]
    rfl).1

/-- Events accumulated by `streamLoop` are content chunks and stream-error
events only: any usage event found in its output was already in the
accumulator. -/
theorem streamLoop_no_usage (model : String) (items : List (Except LLMError String)) :
    ∀ (events : List ServerMessage) (assistant : String) (completion : Nat)
      (p c t d m : Nat),
      ServerMessage.Usage p c t d m ∈ (streamLoop model items events assistant completion).1 →
      ServerMessage.Usage p c t d m ∈ events := by
  induction items with
  | nil =>
    intro events assistant completion p c t d m h
    simpa [streamLoop] using h
  | cons head tail ih =>
    intro events assistant completion p c t d m h
    cases head with
    | ok text =>
      rw [streamLoop] at h
      have h' := ih _ _ _ p c t d m h
      rcases List.mem_append.mp h' with h'' | h''
      · exact h''
      · simp at h''
    | error e =>
      rw [streamLoop] at h
      rcases List.mem_append.mp h with h'' | h''
      · exact h''
      · simp at h''

/-- C10: every usage event the streaming task sends satisfies
`total_tokens = (prompt_tokens + completion_tokens) % 2^32` with
`prompt_tokens` the estimate of the request message and
`completion_tokens` the wrapping sum of the estimates of the consumed
deltas (the counter `streamLoop` computes); and every successful
Anthropic non-streaming response passes the provider token counts through
with `total_tokens` their u32 sum. -/
theorem c10_usage_totals :
    (∀ (env : ChatEnv) (user_id conv_id model message : String)
        (provider : LLMProvider) (p c t d m : Nat),
      ServerMessage.Usage p c t d m
          ∈ (chatTask env user_id conv_id model message provider).events →
      p = estimate_tokens message ∧ t = (p + c) % u32Mod
        ∧ ∀ items, env.streamResult = .ok items →
            c = (streamLoop model items [] "" 0).2.2)
    ∧ (∀ (body : String) (r : Anthropic.AnthropicResponse) (resp : ChatCompletionResponse),
        Anthropic.chat_completion (.response 200 body (.ok r)) = .ok resp →
        resp.usage.prompt_tokens = r.usage.input_tokens
          ∧ resp.usage.completion_tokens = r.usage.output_tokens
          ∧ resp.usage.total_tokens
            = (r.usage.input_tokens + r.usage.output_tokens) % u32Mod) := by
  constructor
  · intro env user_id conv_id model message provider p c t d m hmem
    unfold chatTask at hmem
    cases hsr : env.streamResult with
    | error e =>
      rw [hsr] at hmem
      simp at hmem
    | ok items =>
      rw [hsr] at hmem
      simp only at hmem
      rcases List.mem_append.mp hmem with hmem' | hmem'
      · rcases List.mem_append.mp hmem' with hloop | husage
        · have := streamLoop_no_usage model items [] "" 0 p c t d m hloop
          simp at this
        · cases hrr : env.remainingResult with
          | error e => rw [hrr] at husage; simp at husage
          | ok pair =>
            rw [hrr] at husage
            obtain ⟨daily, monthly⟩ := pair
            simp only [List.mem_singleton] at husage
            obtain ⟨hp, hc, ht, hd, hm⟩ := ServerMessage.Usage.inj husage
            refine ⟨hp, ?_, ?_⟩
            · rw [hp, hc]
              exact ht
            · intro items' hitems'
              obtain rfl := Except.ok.inj hitems'
              exact hc
      · simp at hmem'
  · intro body r resp h
    simp only [Anthropic.chat_completion, if_pos] at h
    obtain rfl := Except.ok.inj h
    exact ⟨rfl, rfl, rfl⟩

/-- C10 witness: the Anthropic usage passthrough at a concrete response with
input 11 and output 22 tokens. -/
theorem c10_usage_totals_witness :
    Anthropic.chat_completion
        (.response 200 ""
          (.ok { id := "m1", model := "claude-3-opus-20240229", content := [],
                 usage := { input_tokens := 11, output_tokens := 22 } }))
      = .ok { id := "m1", model := "claude-3-opus-20240229",
              choices := [{ index := 0,
                            message := { role := "assistant", content := "" },
                            finish_reason := some "stop" }],
              usage := { prompt_tokens := 11, completion_tokens := 22,
                         total_tokens := 33 } }
    ∧ ({ id := "m1", model := "claude-3-opus-20240229",
         choices := [{ index := 0,
                       message := { role := "assistant", content := "" },
                       finish_reason := some "stop" }],
         usage := { prompt_tokens := 11, completion_tokens := 22,
                    total_tokens := 33 } } :
        ChatCompletionResponse).usage.total_tokens = (11 + 22) % u32Mod :=
  ⟨rfl,
   (c10_usage_totals.2 ""
     { id := "m1", model := "claude-3-opus-20240229", content := [],
       usage := { input_tokens := 11, output_tokens := 22 } }
     { id := "m1", model := "claude-3-opus-20240229",
       choices := [{ index := 0,
                     message := { role := "assistant", content := "" },
                     finish_reason := some "stop" }],
       usage := { prompt_tokens := 11, completion_tokens := 22,
                  total_tokens := 33 } }
     rfl).2.2⟩
